import Mathlib

/-!
Verification development for the retail-surveillance core
(`src/retail-surveillance/src/{ml_client.rs, video_clip.rs, pos_integration.rs}`).

Modelling conventions:
* `f32`/`f64` values are modelled as `ℚ` (exact arithmetic; every comparison the
  claims exercise is far from a rounding boundary).
* `u32`/`usize` counters become `ℕ`, `i32`/`i64` become `ℤ`.
* `chrono::DateTime<Utc>` timestamps and `Duration`s are modelled as `ℤ` seconds;
  each call that reads the wall clock (`Utc::now()`) takes that instant as an
  explicit `now : ℤ` argument.
* A Rust `panic!` (out-of-bounds index) is modelled by returning `none`.
* `HashMap`s used only through get/insert/retain are modelled as association lists.
-/

namespace RS

/-- `Detection` from `ml_client.rs`: normalized box, confidence, optional track id. -/
structure Detection where
  x : ℚ
  y : ℚ
  width : ℚ
  height : ℚ
  confidence : ℚ
  track_id : Option ℕ
  deriving DecidableEq, Repr

/-- `Detection::center`. -/
def Detection.center (d : Detection) : ℚ × ℚ :=
  (d.x + d.width / 2, d.y + d.height / 2)

/-- `TrackState` from `ml_client.rs`. -/
inductive TrackState
  | Tentative
  | Confirmed
  | Lost
  deriving DecidableEq, Repr

/-- `Track` from `ml_client.rs`. -/
structure Track where
  id : ℕ
  bbox : Detection
  hits : ℕ
  age : ℕ
  state : TrackState
  velocity : ℚ × ℚ
  deriving DecidableEq, Repr

/-- `ByteTracker` from `ml_client.rs`. -/
structure ByteTracker where
  tracks : List Track
  next_id : ℕ
  max_age : ℕ
  min_hits : ℕ
  iou_threshold : ℚ
  deriving DecidableEq, Repr

/-- `ByteTracker::new`: defaults `max_age = 30`, `min_hits = 3`, `iou_threshold = 0.3`. -/
def ByteTracker.new : ByteTracker :=
  { tracks := [], next_id := 1, max_age := 30, min_hits := 3, iou_threshold := 3/10 }

/-- `ByteTracker::calculate_iou` (reads no tracker state, so modelled standalone). -/
def calculateIou (det1 det2 : Detection) : ℚ :=
  let x1 := max det1.x det2.x
  let y1 := max det1.y det2.y
  let x2 := min (det1.x + det1.width) (det2.x + det2.width)
  let y2 := min (det1.y + det1.height) (det2.y + det2.height)
  if x2 ≤ x1 ∨ y2 ≤ y1 then 0
  else
    let intersection := (x2 - x1) * (y2 - y1)
    let area1 := det1.width * det1.height
    let area2 := det2.width * det2.height
    let union := area1 + area2 - intersection
    if 0 < union then intersection / union else 0

/-- `ByteTracker::match_detections_by_indices`: greedy IOU matching.
The source builds an IOU matrix (entry 0.0 when the track index is out of
range), then for each detection index in order picks the best still-unmatched
track with IOU strictly above the running best (initialised to the threshold),
and finally collects still-unmatched detections in order. -/
def ByteTracker.matchDetectionsByIndices (tr : ByteTracker) (detections : List Detection)
    (trackIndices : List ℕ) : List (ℕ × ℕ) × List Detection :=
  if detections.isEmpty ∨ trackIndices.isEmpty then ([], detections)
  else
    let iouAt : ℕ → ℕ → ℚ := fun i j =>
      match trackIndices.get? j, detections.get? i with
      | some tIdx, some det =>
        match tr.tracks.get? tIdx with
        | some t => calculateIou det t.bbox
        | none => 0
      | _, _ => 0
    let step : (List (ℕ × ℕ) × List Bool × List Bool) → ℕ →
        (List (ℕ × ℕ) × List Bool × List Bool) := fun st i =>
      let matched := st.1
      let matchedTracks := st.2.1
      let matchedDets := st.2.2
      if matchedDets.getD i false then st
      else
        let best := (List.range trackIndices.length).foldl
          (fun (acc : Option ℕ × ℚ) j =>
            if matchedTracks.getD j false then acc
            else if acc.2 < iouAt i j then (some j, iouAt i j) else acc)
          (none, tr.iou_threshold)
        match best.1 with
        | some j =>
          (matched ++ [(i, trackIndices.getD j 0)], matchedTracks.set j true,
            matchedDets.set i true)
        | none => st
    let final := (List.range detections.length).foldl step
      ([], List.replicate trackIndices.length false, List.replicate detections.length false)
    let unmatched := (List.range detections.length).filterMap (fun i =>
      if final.2.2.getD i false then none else detections.get? i)
    (final.1, unmatched)

/-- The matched-pair update loop of `ByteTracker::update`: for each pair
`(det_idx, track_idx)` overwrite the track's box with the detection the source
selects (`detections[det_idx]` when in range there, else the second-pass
leftovers) and reset its age. -/
def applyMatchUpdates (detections ud : List Detection) (pairs : List (ℕ × ℕ))
    (ts : List Track) : List Track :=
  pairs.foldl (fun ts p =>
    match ts.get? p.2 with
    | some t =>
      ts.set p.2 { t with bbox := (if p.1 < detections.length
        then detections.getD p.1 t.bbox
        else ud.getD (p.1 - detections.length) t.bbox), age := 0 }
    | none => ts) ts

/-- The new-track loop of `ByteTracker::update`: each unmatched detection
spawns a Tentative track with the next fresh id. -/
def spawnTentatives (uds : List Detection) (acc : List Track × ℕ) : List Track × ℕ :=
  uds.foldl (fun acc det =>
    (acc.1 ++ [{ id := acc.2, bbox := det, hits := 1, age := 0,
                 state := TrackState.Tentative, velocity := (0, 0) }], acc.2 + 1)) acc

/-- The per-track state-update step of `ByteTracker::update`: bump hits and
recompute velocity for just-matched (age 0) tracks, promoting at `min_hits`;
mark overaged tracks Lost. -/
def lifecycleStep (minHits maxAge : ℕ) (t : Track) : Track :=
  if t.age = 0 then
    let hits := t.hits + 1
    let c := t.bbox.center
    let vel := (c.1 - (t.bbox.x + t.bbox.width / 2), c.2 - (t.bbox.y + t.bbox.height / 2))
    let st := if t.state = TrackState.Tentative ∧ minHits ≤ hits
      then TrackState.Confirmed else t.state
    { t with hits := hits, velocity := vel, state := st }
  else if maxAge < t.age then { t with state := TrackState.Lost }
  else t

/-- `ByteTracker::update`, translated step by step from `ml_client.rs`:
age all tracks; split Confirmed/Tentative indices; two matching passes;
overwrite matched boxes and reset age (note the source indexes the detection
of a second-pass pair into the original `detections` vector whenever the index
is in range there); spawn Tentative tracks for unmatched detections; then for
every `age == 0` track bump hits, recompute velocity from the (already
overwritten) box, and promote at `min_hits`; mark overaged tracks Lost and
drop them; return Confirmed, just-matched boxes tagged with their ids. -/
def ByteTracker.update (tr : ByteTracker) (detections : List Detection) :
    ByteTracker × List Detection :=
  let tracks1 := tr.tracks.map (fun t => { t with age := t.age + 1 })
  let tr1 := { tr with tracks := tracks1 }
  let confirmedIndices := (List.range tracks1.length).filter (fun i =>
    (tracks1.get? i).any (fun t => decide (t.state = TrackState.Confirmed)))
  let tentativeIndices := (List.range tracks1.length).filter (fun i =>
    (tracks1.get? i).any (fun t => decide (t.state = TrackState.Tentative)))
  let mc := tr1.matchDetectionsByIndices detections confirmedIndices
  let matchedConfirmed := mc.1
  let unmatchedDets1 := mc.2
  let mt := tr1.matchDetectionsByIndices unmatchedDets1 tentativeIndices
  let matchedTentative := mt.1
  let unmatchedDets2 := mt.2
  let tracks2 := applyMatchUpdates detections unmatchedDets2
    (matchedConfirmed ++ matchedTentative) tracks1
  let nt := spawnTentatives unmatchedDets2 (tracks2, tr.next_id)
  let tracks4 := nt.1.map (lifecycleStep tr.min_hits tr.max_age)
  let tracks5 := tracks4.filter (fun t => decide (t.state ≠ TrackState.Lost))
  let output := (tracks5.filter (fun t =>
      decide (t.state = TrackState.Confirmed) && decide (t.age = 0))).map
    (fun t => { t.bbox with track_id := some t.id })
  ({ tr with tracks := tracks5, next_id := nt.2 }, output)

/-- Feed a sequence of per-frame detection batches to a fresh tracker. -/
def runTracker (batches : List (List Detection)) : ByteTracker :=
  batches.foldl (fun tr b => (tr.update b).1) ByteTracker.new

/-- `Zone` from `ml_client.rs`. -/
structure Zone where
  id : String
  name : String
  polygon : List (ℚ × ℚ)
  entry_count : ℕ
  exit_count : ℕ
  current_count : ℤ
  deriving DecidableEq, Repr

/-- `Zone::new`: stores the polygon unchecked, counters start at zero. -/
def Zone.new (id name : String) (polygon : List (ℚ × ℚ)) : Zone :=
  { id := id, name := name, polygon := polygon,
    entry_count := 0, exit_count := 0, current_count := 0 }

/-- `Zone::contains_point` (ray casting). The source reads `polygon[n - 1]`
first, which panics when the polygon is empty; that panic is modelled as
`none`. The loop walks edges `(p1, p2)` and toggles `inside`. -/
def Zone.containsPoint (z : Zone) (x y : ℚ) : Option Bool :=
  match z.polygon.getLast? with
  | none => none
  | some p0 =>
    some ((z.polygon.foldl
      (fun (acc : Bool × (ℚ × ℚ)) p2 =>
        let inside := acc.1
        let p1 := acc.2
        let inside' :=
          if (decide (y < p2.2)) ≠ (decide (y < p1.2)) then
            let slope := (p2.1 - p1.1) / (p2.2 - p1.2)
            if x < slope * (y - p1.2) + p1.1 then !inside else inside
          else inside
        (inside', p2))
      (false, p0)).1)

/-- `Zone::update_count`: entries bump both counters, exits bump the exit
counter and decrement occupancy floored at zero. -/
def Zone.updateCount (z : Zone) (prevInside currInside : Bool) : Zone :=
  if !prevInside && currInside then
    { z with entry_count := z.entry_count + 1, current_count := z.current_count + 1 }
  else if prevInside && !currInside then
    { z with exit_count := z.exit_count + 1, current_count := max (z.current_count - 1) 0 }
  else z

/-- `ZoneCounter` from `ml_client.rs`; the `HashMap<u32, (f32, f32)>` of last
track centers is an association list. -/
structure ZoneCounter where
  zones : List Zone
  track_positions : List (ℕ × (ℚ × ℚ))
  deriving DecidableEq, Repr

/-- `ZoneCounter::new`. -/
def ZoneCounter.new (zones : List Zone) : ZoneCounter :=
  { zones := zones, track_positions := [] }

/-- `HashMap::get` on the modelled position map. -/
def posLookup (m : List (ℕ × (ℚ × ℚ))) (k : ℕ) : Option (ℚ × ℚ) :=
  (m.find? (fun p => p.1 == k)).map (fun p => p.2)

/-- `HashMap::insert` on the modelled position map (replace or append). -/
def posInsert (m : List (ℕ × (ℚ × ℚ))) (k : ℕ) (v : ℚ × ℚ) : List (ℕ × (ℚ × ℚ)) :=
  if m.any (fun p => p.1 == k) then m.map (fun p => if p.1 == k then (k, v) else p)
  else m ++ [(k, v)]

/-- The inner `for zone in &mut self.zones` loop of `ZoneCounter::update` for
one tracked detection: evaluate the current center against every zone, and
when a previous center exists run `update_count`. `none` propagates a
`contains_point` panic. -/
def zonesStep (prev : Option (ℚ × ℚ)) (c : ℚ × ℚ) : List Zone → Option (List Zone)
  | [] => some []
  | zone :: rest =>
    match zone.containsPoint c.1 c.2 with
    | none => none
    | some currInside =>
      match (match prev with
             | some pp =>
               match zone.containsPoint pp.1 pp.2 with
               | none => none
               | some prevInside => some (zone.updateCount prevInside currInside)
             | none => some zone) with
      | none => none
      | some zone' =>
        match zonesStep prev c rest with
        | none => none
        | some rest' => some (zone' :: rest')

/-- One iteration of the outer detection loop of `ZoneCounter::update`. -/
def ZoneCounter.updateDet (zc : ZoneCounter) (det : Detection) : Option ZoneCounter :=
  match det.track_id with
  | none => some zc
  | some tid =>
    let c := det.center
    let prev := posLookup zc.track_positions tid
    match zonesStep prev c zc.zones with
    | none => none
    | some zones' =>
      some { zc with zones := zones',
                     track_positions := posInsert zc.track_positions tid c }

/-- `ZoneCounter::update`: process each tracked detection in order, then prune
positions of track ids absent from this frame. -/
def ZoneCounter.update (zc : ZoneCounter) (dets : List Detection) : Option ZoneCounter :=
  match dets.foldl (fun acc det => acc.bind (fun z => z.updateDet det)) (some zc) with
  | none => none
  | some zc' =>
    some { zc' with track_positions := (zc'.track_positions.filter
      (fun p => dets.any (fun d => d.track_id == some p.1))) }

/-- Feed a sequence of per-frame batches of tracked detections to a counter. -/
def runZoneCounter (zc : ZoneCounter) (batches : List (List Detection)) :
    Option ZoneCounter :=
  batches.foldl (fun acc b => acc.bind (fun z => z.update b)) (some zc)

/-- `FrameData` from `video_clip.rs` (timestamp in seconds, owned bytes). -/
structure FrameData where
  timestamp : ℤ
  data : List ℕ
  width : ℕ
  height : ℕ
  deriving DecidableEq, Repr

/-- `VideoBuffer` from `video_clip.rs` (the spec's FrameRingBuffer): a deque of
frames plus the retention duration; the mutex is irrelevant to the sequential
semantics modelled here. -/
structure VideoBuffer where
  frames : List FrameData
  max_duration : ℤ
  camera_id : String
  deriving DecidableEq, Repr

/-- `VideoBuffer::new`. -/
def VideoBuffer.new (cameraId : String) (bufferDurationSecs : ℤ) : VideoBuffer :=
  { frames := [], max_duration := bufferDurationSecs, camera_id := cameraId }

/-- `VideoBuffer::add_frame`: push at the back, then pop from the front while
the front frame is older than `now - max_duration` (`now` is the `Utc::now()`
of this call). -/
def VideoBuffer.addFrame (vb : VideoBuffer) (now : ℤ) (frame : FrameData) : VideoBuffer :=
  let cutoff := now - vb.max_duration
  { vb with frames := ((vb.frames ++ [frame]).dropWhile
      (fun f => decide (f.timestamp < cutoff))) }

/-- `VideoBuffer::extract_frames`: filtered copy of frames in `[start, stop]`
inclusive (the source calls the bound `end`, a Lean keyword). -/
def VideoBuffer.extractFrames (vb : VideoBuffer) (start stop : ℤ) : List FrameData :=
  vb.frames.filter (fun f => decide (start ≤ f.timestamp) && decide (f.timestamp ≤ stop))

/-- Apply a sequence of `add_frame` calls, each tagged with its `Utc::now()`. -/
def runAdds (vb : VideoBuffer) (adds : List (ℤ × FrameData)) : VideoBuffer :=
  adds.foldl (fun b p => b.addFrame p.1 p.2) vb

/-- `ClipPriority` from `video_clip.rs`. -/
inductive ClipPriority
  | Low
  | Medium
  | High
  | Critical
  deriving DecidableEq, Repr

/-- `VideoClipRequest` from `video_clip.rs` (`Uuid`s modelled as `ℕ`). -/
structure VideoClipRequest where
  id : ℕ
  timestamp : ℤ
  duration_before_secs : ℤ
  duration_after_secs : ℤ
  pos_event_id : Option ℕ
  alert_id : Option ℕ
  camera_id : String
  priority : ClipPriority
  deriving DecidableEq, Repr

/-- A filesystem path produced by `generate_clip_path` / `generate_thumbnail_path`:
`<output_dir>/<camera_id>/<date(timestamp)>/<time(timestamp)>_<id-prefix>`,
modelled by its determining components. -/
structure ClipPath where
  camera : String
  ts : ℤ
  reqId : ℕ
  deriving DecidableEq, Repr

/-- `VideoClip` from `video_clip.rs`. -/
structure VideoClip where
  id : ℕ
  camera_id : String
  start_time : ℤ
  end_time : ℤ
  file_path : ClipPath
  thumbnail_path : Option ClipPath
  size_bytes : ℕ
  duration_secs : ℤ
  pos_event_id : Option ℕ
  alert_id : Option ℕ
  created_at : ℤ
  deriving DecidableEq, Repr

/-- Failure modes of `process_request`: the `"No frames found in requested
time range"` bail, and any encoder-side failure inside `save_clip`. -/
inductive ClipError
  | noFramesInRange
  | encodingFailed
  deriving DecidableEq, Repr

/-- Filesystem side effects of `process_request`, in program order. -/
inductive FsEffect
  | createdClipPath (p : ClipPath)
  | createdThumbnailPath (p : ClipPath)
  | wroteClipFile (p : ClipPath)
  | wroteThumbnail (p : ClipPath)
  deriving DecidableEq, Repr

/-- `VideoClipExtractor::process_request`. Control flow from the source:
resolve the window as `[timestamp - before, timestamp + after]` (an over-long
window only logs a warning); extract frames; bail with the no-frames error
before any path is created; otherwise create the clip and thumbnail paths,
encode (`encodeResult` stands for the external encoder: `some size` on
success), grab the middle frame for a thumbnail whose generation failure is
ignored (`thumbOk`), and return the descriptor carrying exactly the resolved
window. The buffer is returned unchanged — the source only ever reads it. -/
def processRequest (buffer : VideoBuffer) (req : VideoClipRequest)
    (encodeResult : Option ℕ) (thumbOk : Bool) (now : ℤ) :
    Except ClipError VideoClip × List FsEffect × VideoBuffer :=
  let startTime := req.timestamp - req.duration_before_secs
  let endTime := req.timestamp + req.duration_after_secs
  let totalDuration := endTime - startTime
  let frames := buffer.extractFrames startTime endTime
  if frames.isEmpty then (Except.error ClipError.noFramesInRange, [], buffer)
  else
    let clipPath : ClipPath := { camera := buffer.camera_id, ts := req.timestamp, reqId := req.id }
    let thumbPath : ClipPath := { camera := buffer.camera_id, ts := req.timestamp, reqId := req.id }
    let eff1 := [FsEffect.createdClipPath clipPath, FsEffect.createdThumbnailPath thumbPath]
    match encodeResult with
    | none => (Except.error ClipError.encodingFailed, eff1, buffer)
    | some sizeBytes =>
      let eff2 := eff1 ++ [FsEffect.wroteClipFile clipPath]
      let thumb := match frames.get? (frames.length / 2) with
        | some _ => some thumbPath
        | none => none
      let eff3 := eff2 ++ (if thumbOk && (frames.get? (frames.length / 2)).isSome
        then [FsEffect.wroteThumbnail thumbPath] else [])
      (Except.ok
        { id := req.id
          camera_id := buffer.camera_id
          start_time := startTime
          end_time := endTime
          file_path := clipPath
          thumbnail_path := thumb
          size_bytes := sizeBytes
          duration_secs := totalDuration
          pos_event_id := req.pos_event_id
          alert_id := req.alert_id
          created_at := now }, eff3, buffer)

/-- `POSEventType` from `pos_integration.rs`. -/
inductive POSEventType
  | DiscountApplied
  | VoidTransaction
  | PaymentCleared
  | RefundIssued
  | PriceOverride
  | QuantityChanged
  | HighValueTransaction
  | NoSaleOpened
  | CashDrawerOpened
  | SuspiciousReturn
  deriving DecidableEq, Repr

/-- `POSEvent` from `pos_integration.rs`. The `timestamp` enters risk scoring
only through `timestamp.hour()`, modelled as `hourOfDay`; the `metadata` map
enters only through which keys are present, modelled as `metadataKeys`. -/
structure POSEvent where
  event_id : ℕ
  event_type : POSEventType
  hourOfDay : ℕ
  store_id : String
  register_id : String
  staff_id : String
  order_id : String
  ticket_no : String
  amount : Option ℚ
  original_amount : Option ℚ
  discount_percent : Option ℚ
  metadataKeys : List String
  deriving DecidableEq, Repr

/-- The risk-relevant part of `POSConfig` (`Default` values from the source). -/
structure POSConfig where
  correlation_window_secs : ℤ
  high_value_threshold : ℚ
  discount_threshold : ℚ
  deriving DecidableEq, Repr

/-- `POSConfig::default`: window 60s, high-value 1000, discount 30%. -/
def POSConfig.default : POSConfig :=
  { correlation_window_secs := 60, high_value_threshold := 1000, discount_threshold := 30 }

/-- `RiskAnalyzer::calculate_risk_score`: additive heuristic capped at 1. -/
def calculateRiskScore (config : POSConfig) (event : POSEvent) : ℚ :=
  let base : ℚ :=
    match event.event_type with
    | POSEventType.VoidTransaction => 2/5
    | POSEventType.RefundIssued => 1/2
    | POSEventType.PriceOverride => 3/10
    | POSEventType.NoSaleOpened => 3/5
    | POSEventType.CashDrawerOpened => 3/10
    | POSEventType.SuspiciousReturn => 7/10
    | POSEventType.DiscountApplied => 1/5
    | _ => 1/10
  let s2 := base + (match event.amount with
    | some amount => if config.high_value_threshold < amount then (1/5 : ℚ) else 0
    | none => 0)
  let s3 := s2 + (match event.discount_percent with
    | some discount => if config.discount_threshold < discount then (3/10 : ℚ) else 0
    | none => 0)
  let s4 := s3 + (if event.metadataKeys.contains "repeat_offender" then (3/10 : ℚ) else 0)
  let s5 := s4 + (if event.hourOfDay < 6 ∨ 22 < event.hourOfDay then (1/10 : ℚ) else 0)
  min s5 1

/-- `RiskAnalyzer::should_alert`: score above 0.6, or an inherently
alert-worthy event type. -/
def shouldAlert (config : POSConfig) (event : POSEvent) : Bool :=
  decide ((3/5 : ℚ) < calculateRiskScore config event) ||
    (match event.event_type with
     | POSEventType.VoidTransaction => true
     | POSEventType.RefundIssued => true
     | POSEventType.SuspiciousReturn => true
     | POSEventType.NoSaleOpened => true
     | _ => false)

/-! Invariant predicates used by the claims. -/

/-- Per-zone counter invariant: occupancy is non-negative and at least
`entry_count - exit_count` (equality can be lost at a floored exit). -/
def zoneInv (z : Zone) : Prop :=
  0 ≤ z.current_count ∧ (z.entry_count : ℤ) - (z.exit_count : ℤ) ≤ z.current_count

/-- Tracker id-allocation invariant: stored track ids are pairwise distinct
and all below `next_id`. -/
def idsOk (tr : ByteTracker) : Prop :=
  (tr.tracks.map Track.id).Pairwise (· ≠ ·) ∧ ∀ t ∈ tr.tracks, t.id < tr.next_id

/-! Concrete fixtures used by counterexamples and witnesses. -/

/-- A well-formed detection, the one used by the repository's own tracker test. -/
def sampleDet : Detection :=
  { x := 1/10, y := 1/10, width := 1/10, height := 1/5, confidence := 9/10, track_id := none }

/-- A detection box used to build a confirmed track. -/
def dA : Detection :=
  { x := 1/10, y := 1/10, width := 1/5, height := 1/5, confidence := 9/10, track_id := none }

/-- `dA` shifted right by 0.01: overlaps `dA` with IOU 19/21, well above the
match threshold. -/
def dB : Detection :=
  { x := 11/100, y := 1/10, width := 1/5, height := 1/5, confidence := 9/10, track_id := none }

/-- An axis-aligned unit-square zone. -/
def unitSquareZone : Zone := Zone.new "entrance" "Entrance" [(0, 0), (1, 0), (1, 1), (0, 1)]

/-- A zone whose polygon is empty; `Zone::new` accepts it unchecked. -/
def emptyPolyZone : Zone := Zone.new "bad" "Bad" []

/-- A tracked detection whose center (0.5, 0.5) lies inside the unit square. -/
def detInside : Detection :=
  { x := 9/20, y := 9/20, width := 1/10, height := 1/10, confidence := 1, track_id := some 1 }

/-- The same track one frame later, center (2.05, 2.05), outside the unit square. -/
def detOutside : Detection :=
  { x := 2, y := 2, width := 1/10, height := 1/10, confidence := 1, track_id := some 1 }

/-- A void transaction of amount 1500 with a 40% discount (noon, no metadata). -/
def voidEvent1500 : POSEvent :=
  { event_id := 1, event_type := POSEventType.VoidTransaction, hourOfDay := 12,
    store_id := "s1", register_id := "r1", staff_id := "e1", order_id := "o1",
    ticket_no := "t1", amount := some 1500, original_amount := none,
    discount_percent := some 40, metadataKeys := [] }

/-- A cleared payment of amount 50, no discount, noon, no metadata. -/
def payEvent50 : POSEvent :=
  { voidEvent1500 with
      event_type := POSEventType.PaymentCleared, amount := some 50,
      discount_percent := none }

/-- `payEvent50` with the `repeat_offender` metadata key present. -/
def payEvent50RO : POSEvent :=
  { payEvent50 with metadataKeys := ["repeat_offender"] }

/-- A single frame at timestamp 100. -/
def frame100 : FrameData := { timestamp := 100, data := [0], width := 2, height := 2 }

/-- A buffer (retention 120s) holding exactly `frame100`, added at time 100. -/
def bufOneFrame : VideoBuffer := (VideoBuffer.new "cam" 120).addFrame 100 frame100

/-- A clip request for a symmetric 30s window around timestamp 100. -/
def reqC3 : VideoClipRequest :=
  { id := 7, timestamp := 100, duration_before_secs := 30, duration_after_secs := 30,
    pos_event_id := none, alert_id := none, camera_id := "cam",
    priority := ClipPriority.High }

/-- A clip request whose resolved window [470, 530] holds no buffered frame. -/
def reqNoFrames : VideoClipRequest := { reqC3 with timestamp := 500 }

/-- A frame at timestamp 0. -/
def frame0 : FrameData := { timestamp := 0, data := [], width := 1, height := 1 }

/-- A retention-60s buffer that received `frame0` at time 0. -/
def bufC4 : VideoBuffer := runAdds (VideoBuffer.new "cam" 60) [(0, frame0)]

/-- The clip produced for `reqC3` against `bufOneFrame` (encoder reports 5
bytes, thumbnail generation succeeds, `Utc::now()` = 200). -/
def clipC3 : VideoClip :=
  { id := 7, camera_id := "cam", start_time := 70, end_time := 130,
    file_path := { camera := "cam", ts := 100, reqId := 7 },
    thumbnail_path := some { camera := "cam", ts := 100, reqId := 7 },
    size_bytes := 5, duration_secs := 60, pos_event_id := none, alert_id := none,
    created_at := 200 }

/-- The filesystem effects of producing `clipC3`. -/
def effsC3 : List FsEffect :=
  [FsEffect.createdClipPath { camera := "cam", ts := 100, reqId := 7 },
   FsEffect.createdThumbnailPath { camera := "cam", ts := 100, reqId := 7 },
   FsEffect.wroteClipFile { camera := "cam", ts := 100, reqId := 7 },
   FsEffect.wroteThumbnail { camera := "cam", ts := 100, reqId := 7 }]

/-- Tracker state after the first `update [d]` on a fresh tracker. -/
def spawnedTracker (d : Detection) : ByteTracker :=
  { tracks := [{ id := 1, bbox := d, hits := 2, age := 0,
                 state := TrackState.Tentative, velocity := (0, 0) }],
    next_id := 2, max_age := 30, min_hits := 3, iou_threshold := 3/10 }

/-- Tracker state after the second `update [d]`: promoted to Confirmed. -/
def promotedTracker (d : Detection) : ByteTracker :=
  { tracks := [{ id := 1, bbox := d, hits := 3, age := 0,
                 state := TrackState.Confirmed, velocity := (0, 0) }],
    next_id := 2, max_age := 30, min_hits := 3, iou_threshold := 3/10 }

/-- Tracker state after the confirmed `dA`-track matched `dB`. -/
def movedTracker : ByteTracker :=
  { tracks := [{ id := 1, bbox := dB, hits := 4, age := 0,
                 state := TrackState.Confirmed, velocity := (0, 0) }],
    next_id := 2, max_age := 30, min_hits := 3, iou_threshold := 3/10 }

/-- The unit-square zone after one recorded exit (the C2 run's final zone). -/
def zoneC2 : Zone := { unitSquareZone with exit_count := 1 }

/-- The zone counter reached from `[[detInside], [detOutside]]`. -/
def zcC2 : ZoneCounter := { zones := [zoneC2], track_positions := [(1, (41/20, 41/20))] }

/-- A frame at timestamp 40. -/
def frame40 : FrameData := { timestamp := 40, data := [], width := 1, height := 1 }

/-- A two-call `add_frame` trace: `frame0` at time 0, `frame40` at time 50. -/
def addsC4 : List (ℤ × FrameData) := [(0, frame0), (50, frame40)]

/-! Helper lemmas. -/

set_option maxHeartbeats 2000000

theorem tent_ne_lost : (TrackState.Tentative = TrackState.Lost) = False := by
  simp

theorem tent_ne_conf : (TrackState.Tentative = TrackState.Confirmed) = False := by
  simp

theorem conf_ne_lost : (TrackState.Confirmed = TrackState.Lost) = False := by
  simp

theorem conf_ne_tent : (TrackState.Confirmed = TrackState.Tentative) = False := by
  simp

theorem conf_eq_conf : (TrackState.Confirmed = TrackState.Confirmed) = True := by
  simp

theorem tent_eq_tent : (TrackState.Tentative = TrackState.Tentative) = True := by
  simp

/-- A positive-area box overlaps itself completely: its IOU with itself is 1. -/
theorem calculateIou_self (d : Detection) (hw : 0 < d.width) (hh : 0 < d.height) :
    calculateIou d d = 1 := by
  unfold calculateIou
  simp only [max_self, min_self]
  have hx : ¬(d.x + d.width ≤ d.x ∨ d.y + d.height ≤ d.y) := by
    push_neg
    constructor <;> linarith
  rw [if_neg hx]
  have e1 : d.x + d.width - d.x = d.width := by ring
  have e2 : d.y + d.height - d.y = d.height := by ring
  simp only [e1, e2]
  have e3 : d.width * d.height + d.width * d.height - d.width * d.height
      = d.width * d.height := by ring
  rw [e3, if_pos (mul_pos hw hh)]
  exact div_self (ne_of_gt (mul_pos hw hh))

/-- First `update` on a fresh tracker: the single detection spawns track 1,
whose hit counter is bumped twice in the same call (1 at creation, +1 in the
state-update loop), leaving it Tentative with `hits = 2`. -/
theorem update_fresh_spawn (d : Detection) :
    ByteTracker.new.update [d] = (spawnedTracker d, []) := by
  norm_num [spawnedTracker, applyMatchUpdates, spawnTentatives, lifecycleStep,
    ByteTracker.update, ByteTracker.matchDetectionsByIndices, ByteTracker.new,
    calculateIou, Detection.center, List.foldl, List.filter_cons, List.filter_nil,
    List.range_succ, List.filterMap_cons, List.filterMap_nil, List.replicate,
    List.getD, Option.getD, Option.any, List.getElem?_cons_zero, List.getElem?_cons_succ,
    List.getElem?_nil, List.set, List.isEmpty, Option.map, min_def, max_def,
    decide_eq_decide, List.map_cons, List.map_nil, List.append_nil, List.nil_append,
    List.cons_append, List.get?_eq_getElem?, tent_ne_lost, tent_ne_conf, conf_ne_lost,
    conf_ne_tent, conf_eq_conf, tent_eq_tent, sub_self]

/-- Second `update` with the identical positive-area detection: the Tentative
track self-matches (IOU 1 > 0.3), reaches `hits = 3 = min_hits`, and is
promoted to Confirmed — already on the second call. -/
theorem update_selfmatch_promote (d : Detection) (hw : 0 < d.width) (hh : 0 < d.height) :
    (spawnedTracker d).update [d] = (promotedTracker d, [{ d with track_id := some 1 }]) := by
  norm_num [spawnedTracker, promotedTracker, applyMatchUpdates, spawnTentatives,
    lifecycleStep, ByteTracker.update, ByteTracker.matchDetectionsByIndices,
    calculateIou_self d hw hh, Detection.center, List.foldl, List.filter_cons,
    List.filter_nil, List.range_succ, List.filterMap_cons, List.filterMap_nil,
    List.replicate, List.getD, Option.getD, Option.any, List.getElem?_cons_zero,
    List.getElem?_cons_succ, List.getElem?_nil, List.set, List.isEmpty, Option.map,
    decide_eq_decide, List.map_cons, List.map_nil, List.append_nil, List.nil_append,
    List.cons_append, List.get?_eq_getElem?, tent_ne_lost, tent_ne_conf, conf_ne_lost,
    conf_ne_tent, conf_eq_conf, tent_eq_tent, sub_self]

/-- Third `update` on the confirmed `dA` track with the shifted detection
`dB`: the track matches (IOU 19/21), its box is overwritten with `dB`, and the
velocity is recomputed from the already-overwritten box — yielding `(0, 0)`
instead of the inter-frame center delta. -/
theorem update_confirmed_moved :
    (promotedTracker dA).update [dB] = (movedTracker, [{ dB with track_id := some 1 }]) := by
  norm_num [promotedTracker, movedTracker, applyMatchUpdates, spawnTentatives,
    lifecycleStep, ByteTracker.update, ByteTracker.matchDetectionsByIndices, dA, dB,
    calculateIou, Detection.center, List.foldl, List.filter_cons, List.filter_nil,
    List.range_succ, List.filterMap_cons, List.filterMap_nil, List.replicate,
    List.getD, Option.getD, Option.any, List.getElem?_cons_zero, List.getElem?_cons_succ,
    List.getElem?_nil, List.set, List.isEmpty, Option.map, min_def, max_def,
    decide_eq_decide, List.map_cons, List.map_nil, List.append_nil, List.nil_append,
    List.cons_append, List.get?_eq_getElem?, tent_ne_lost, tent_ne_conf, conf_ne_lost,
    conf_ne_tent, conf_eq_conf, tent_eq_tent, sub_self]

/-! Claim C1. -/

/-- C1 counterexample: with the default `min_hits = 3`, feeding the identical
detection `sampleDet` once per frame promotes the track to Confirmed already
on the 2nd `update` call — refuting the claim that the track is not Confirmed
on any call earlier than the min-hits-th (3rd). -/
theorem c1_counterexample :
    ByteTracker.new.min_hits = 3 ∧
    ((ByteTracker.new.update [sampleDet]).1.update [sampleDet]).1.tracks.map Track.state
      = [TrackState.Confirmed] := by
  refine ⟨rfl, ?_⟩
  simp only [update_fresh_spawn sampleDet,
    update_selfmatch_promote sampleDet (by norm_num [sampleDet]) (by norm_num [sampleDet])]
  simp [promotedTracker]

/-- C1 (amended): starting from a fresh tracker with the default
`min_hits = 3`, a constant positive-area detection fed once per frame leaves
the track Tentative after the 1st call and promotes it to Confirmed exactly on
the 2nd call (`min_hits - 1`), because a newly spawned track's hit counter is
incremented a second time within its spawning call. -/
theorem c1_promotion_second_update (d : Detection) (hw : 0 < d.width) (hh : 0 < d.height) :
    ((ByteTracker.new.update [d]).1).tracks.map Track.state = [TrackState.Tentative] ∧
    (((ByteTracker.new.update [d]).1).update [d]).1.tracks.map Track.state
      = [TrackState.Confirmed] := by
  simp only [update_fresh_spawn d, update_selfmatch_promote d hw hh]
  constructor
  · simp [spawnedTracker]
  · simp [promotedTracker]

/-- C1 witness: the amended promotion schedule evaluated at `sampleDet`. -/
theorem c1_promotion_second_update_witness :
    ((ByteTracker.new.update [sampleDet]).1).tracks.map Track.state = [TrackState.Tentative] ∧
    (((ByteTracker.new.update [sampleDet]).1).update [sampleDet]).1.tracks.map Track.state
      = [TrackState.Confirmed] :=
  c1_promotion_second_update sampleDet (by norm_num [sampleDet]) (by norm_num [sampleDet])

/-! Claim C5. -/

/-- C5: after a confirmed track built from `dA` matches the shifted detection
`dB`, the code leaves the track's velocity at `(0, 0)`, although the center
delta between the matched detection and the pre-call box is `(1/100, 0)`:
the velocity formula reads the box it has just overwritten. -/
theorem c5_velocity_zero :
    (runTracker [[dA], [dA], [dB]]).tracks.map Track.velocity = [(0, 0)] ∧
    (dB.center.1 - dA.center.1, dB.center.2 - dA.center.2) = ((1 : ℚ)/100, (0 : ℚ)) ∧
    ((1 : ℚ)/100, (0 : ℚ)) ≠ ((0 : ℚ), (0 : ℚ)) := by
  refine ⟨?_, by norm_num [dA, dB, Detection.center], by simp⟩
  show ((((ByteTracker.new.update [dA]).1).update [dA]).1.update [dB]).1.tracks.map
    Track.velocity = [(0, 0)]
  simp only [update_fresh_spawn dA,
    update_selfmatch_promote dA (by norm_num [dA]) (by norm_num [dA]),
    update_confirmed_moved]
  simp [movedTracker]

/-! Claim C6. -/

/-- C6 counterexample: `(1, 0)` is a vertex of the unit-square zone, yet
`contains_point` reports it outside — not every boundary vertex counts as
inside. -/
theorem c6_counterexample :
    ((1 : ℚ), (0 : ℚ)) ∈ unitSquareZone.polygon ∧
    unitSquareZone.containsPoint 1 0 = some false := by
  constructor
  · simp [unitSquareZone, Zone.new]
  · norm_num [Zone.containsPoint, unitSquareZone, Zone.new, List.getLast?, List.foldl,
      decide_eq_decide]

/-- C6 (amended): vertex containment under the ray-casting test is not
uniform: for the unit-square zone the vertex `(0, 0)` is reported inside while
the vertex `(1, 0)` is reported outside. -/
theorem c6_vertex_mixed :
    (((0 : ℚ), (0 : ℚ)) ∈ unitSquareZone.polygon ∧
      unitSquareZone.containsPoint 0 0 = some true) ∧
    (((1 : ℚ), (0 : ℚ)) ∈ unitSquareZone.polygon ∧
      unitSquareZone.containsPoint 1 0 = some false) := by
  refine ⟨⟨by simp [unitSquareZone, Zone.new], ?_⟩, ⟨by simp [unitSquareZone, Zone.new], ?_⟩⟩
  · norm_num [Zone.containsPoint, unitSquareZone, Zone.new, List.getLast?, List.foldl,
      decide_eq_decide]
  · norm_num [Zone.containsPoint, unitSquareZone, Zone.new, List.getLast?, List.foldl,
      decide_eq_decide]

/-! Claim C8. -/

/-- C8 counterexample: `Zone::new` accepts the empty polygon without any
validation, and on the resulting zone `contains_point` panics (out-of-bounds
`polygon[n - 1]`, modelled as `none`) — so invalid polygons are not rejected
at construction and the hot path is not total. -/
theorem c8_counterexample :
    emptyPolyZone = Zone.new "bad" "Bad" [] ∧
    emptyPolyZone.containsPoint 0 0 = none := by
  exact ⟨rfl, rfl⟩

/-- C8 (amended): `Zone::new` performs no validation, but `contains_point`
never panics on any zone whose polygon has at least one vertex (the division
in the edge test is guarded by the strict crossing condition, and the only
panic source is the initial `polygon[n - 1]` read). -/
theorem c8_total_nonempty (z : Zone) (x y : ℚ) (h : z.polygon ≠ []) :
    (z.containsPoint x y).isSome := by
  unfold Zone.containsPoint
  cases hE : z.polygon.getLast? with
  | none => exact absurd (List.getLast?_eq_none_iff.mp hE) h
  | some p => simp

/-- C8 witness: totality evaluated on the unit-square zone. -/
theorem c8_total_nonempty_witness :
    ((unitSquareZone.containsPoint (1/2) (1/2)).isSome : Prop) :=
  c8_total_nonempty unitSquareZone (1/2) (1/2) (by simp [unitSquareZone, Zone.new])

/-! Claim C7. -/

/-- C7 counterexample: a `PaymentCleared` event of amount 50 with no discount
but with the `repeat_offender` metadata key scores `0.1 + 0.3 = 0.4`, which is
not below 0.3 — the claimed bound does not hold regardless of the event's
other fields. -/
theorem c7_counterexample :
    payEvent50RO.event_type = POSEventType.PaymentCleared ∧
    payEvent50RO.amount = some 50 ∧
    payEvent50RO.discount_percent = none ∧
    calculateRiskScore POSConfig.default payEvent50RO = 2/5 ∧
    ¬((2 : ℚ)/5 < 3/10) := by
  refine ⟨rfl, rfl, rfl, ?_, by norm_num⟩
  norm_num [calculateRiskScore, POSConfig.default, payEvent50RO, payEvent50, voidEvent1500,
    min_def]

/-- C7 (amended): with the default configuration, every `VoidTransaction` of
amount 1500 with a 40% discount scores above 0.5 and alerts, regardless of all
other fields; every `PaymentCleared` of amount 50 with no discount never
alerts, and scores below 0.3 provided its metadata lacks the
`repeat_offender` key (with that key the score reaches 0.4). -/
theorem c7_amended (e : POSEvent) :
    (e.event_type = POSEventType.VoidTransaction → e.amount = some 1500 →
      e.discount_percent = some 40 →
      (1/2 : ℚ) < calculateRiskScore POSConfig.default e ∧
        shouldAlert POSConfig.default e = true) ∧
    (e.event_type = POSEventType.PaymentCleared → e.amount = some 50 →
      e.discount_percent = none →
      shouldAlert POSConfig.default e = false ∧
        (e.metadataKeys.contains "repeat_offender" = false →
          calculateRiskScore POSConfig.default e < 3/10)) := by
  constructor
  · intro h1 h2 h3
    have hs : (1/2 : ℚ) < calculateRiskScore POSConfig.default e := by
      unfold calculateRiskScore
      rw [h1, h2, h3]
      simp only [POSConfig.default]
      split_ifs <;> norm_num [min_def] at *
    refine ⟨hs, ?_⟩
    unfold shouldAlert
    rw [h1]
    simp
  · intro h1 h2 h3
    have hs : calculateRiskScore POSConfig.default e ≤ 1/2 := by
      unfold calculateRiskScore
      rw [h1, h2, h3]
      simp only [POSConfig.default]
      split_ifs <;> norm_num [min_def] at *
    constructor
    · unfold shouldAlert
      rw [h1]
      have : ¬((3 : ℚ)/5 < calculateRiskScore POSConfig.default e) := by
        intro hc
        linarith
      simp [this]
    · intro hro
      unfold calculateRiskScore
      rw [h1, h2, h3]
      simp only [POSConfig.default, hro]
      split_ifs <;> norm_num [min_def] at *

/-- C7 witness: the amended scenario evaluated at the two fixture events. -/
theorem c7_amended_witness :
    ((1/2 : ℚ) < calculateRiskScore POSConfig.default voidEvent1500 ∧
      shouldAlert POSConfig.default voidEvent1500 = true) ∧
    (shouldAlert POSConfig.default payEvent50 = false ∧
      calculateRiskScore POSConfig.default payEvent50 < 3/10) :=
  ⟨(c7_amended voidEvent1500).1 rfl rfl rfl,
   ((c7_amended payEvent50).2 rfl rfl rfl).1,
   ((c7_amended payEvent50).2 rfl rfl rfl).2 rfl⟩

/-! Claim C3. -/

/-- C3 counterexample: the buffer covers only timestamp 100, yet the returned
clip's resolved window is the full requested `[70, 130]` — `process_request`
never clamps the resolved window to the buffer's actual coverage. -/
theorem c3_counterexample :
    ((processRequest bufOneFrame reqC3 (some 5) true 200).1.toOption.map
      (fun c => (c.start_time, c.end_time))) = some (70, 130) ∧
    bufOneFrame.frames.map FrameData.timestamp = [100] ∧
    (70 : ℤ) ≠ 100 := by
  decide

/-- C3 (amended): whenever `process_request` returns a clip, its resolved
window is exactly `[timestamp - duration_before, timestamp + duration_after]`
of the request — with no further clamping against the buffer's coverage. -/
theorem c3_window_from_request (buffer : VideoBuffer) (req : VideoClipRequest)
    (enc : Option ℕ) (tb : Bool) (now : ℤ) (clip : VideoClip) (effs : List FsEffect)
    (buf' : VideoBuffer)
    (h : processRequest buffer req enc tb now = (Except.ok clip, effs, buf')) :
    clip.start_time = req.timestamp - req.duration_before_secs ∧
    clip.end_time = req.timestamp + req.duration_after_secs := by
  simp only [processRequest] at h
  split at h
  · exact absurd h (by simp)
  · split at h
    · exact absurd h (by simp)
    · simp only [Prod.mk.injEq, Except.ok.injEq] at h
      obtain ⟨hclip, -⟩ := h
      subst hclip
      exact ⟨rfl, rfl⟩

/-- C3 witness: the window identity evaluated on the fixture request. -/
theorem c3_window_from_request_witness :
    clipC3.start_time = reqC3.timestamp - reqC3.duration_before_secs ∧
    clipC3.end_time = reqC3.timestamp + reqC3.duration_after_secs :=
  c3_window_from_request bufOneFrame reqC3 (some 5) true 200 clipC3 effsC3 bufOneFrame rfl

/-! Claim C2. -/


theorem zoneInv_updateCount (z : Zone) (p c : Bool) (h : zoneInv z) :
    zoneInv (z.updateCount p c) := by
  obtain ⟨h1, h2⟩ := h
  unfold Zone.updateCount
  split_ifs <;> unfold zoneInv <;> (try dsimp only) <;> constructor <;> push_cast <;> omega

theorem zonesStep_inv (prev : Option (ℚ × ℚ)) (c : ℚ × ℚ) :
    ∀ (zs zs' : List Zone), zonesStep prev c zs = some zs' →
      (∀ z ∈ zs, zoneInv z) → ∀ z' ∈ zs', zoneInv z' := by
  intro zs
  induction zs with
  | nil =>
    intro zs' h hz
    simp only [zonesStep] at h
    obtain rfl : [] = zs' := by simpa using h
    simp
  | cons zone rest ih =>
    intro zs' h hz
    simp only [zonesStep] at h
    cases prev with
    | none =>
      cases hci : zone.containsPoint c.1 c.2 with
      | none => simp only [hci] at h; exact Option.noConfusion h
      | some ci =>
        simp only [hci] at h
        cases hr : zonesStep none c rest with
        | none => simp only [hr] at h; exact Option.noConfusion h
        | some rest' =>
          simp only [hr, Option.some.injEq] at h
          subst h
          intro z' hz'
          rcases List.mem_cons.mp hz' with rfl | hmem
          · exact hz z' (by simp)
          · exact ih rest' hr (fun z hzin => hz z (by simp [hzin])) z' hmem
    | some pp =>
      cases hci : zone.containsPoint c.1 c.2 with
      | none => simp only [hci] at h; exact Option.noConfusion h
      | some ci =>
        simp only [hci] at h
        cases hpi : zone.containsPoint pp.1 pp.2 with
        | none => simp only [hpi] at h; exact Option.noConfusion h
        | some pi =>
          simp only [hpi] at h
          cases hr : zonesStep (some pp) c rest with
          | none => simp only [hr] at h; exact Option.noConfusion h
          | some rest' =>
            simp only [hr, Option.some.injEq] at h
            subst h
            intro z' hz'
            rcases List.mem_cons.mp hz' with rfl | hmem
            · exact zoneInv_updateCount zone _ _ (hz zone (by simp))
            · exact ih rest' hr (fun z hzin => hz z (by simp [hzin])) z' hmem

theorem updateDet_inv (zc zc' : ZoneCounter) (det : Detection)
    (h : zc.updateDet det = some zc') (hz : ∀ z ∈ zc.zones, zoneInv z) :
    ∀ z ∈ zc'.zones, zoneInv z := by
  unfold ZoneCounter.updateDet at h
  cases hd : det.track_id with
  | none =>
    simp only [hd, Option.some.injEq] at h
    subst h
    exact hz
  | some tid =>
    simp only [hd] at h
    cases hs : zonesStep (posLookup zc.track_positions tid) det.center zc.zones with
    | none => simp only [hs] at h; exact Option.noConfusion h
    | some zones' =>
      simp only [hs, Option.some.injEq] at h
      subst h
      exact zonesStep_inv _ _ _ _ hs hz

theorem foldl_updateDet_none (dets : List Detection) :
    dets.foldl (fun acc det => acc.bind (fun z => z.updateDet det))
      (none : Option ZoneCounter) = none := by
  induction dets with
  | nil => rfl
  | cons d ds ih => rw [List.foldl_cons, Option.none_bind]; exact ih

theorem foldl_updateDet_inv (dets : List Detection) :
    ∀ (zc zc' : ZoneCounter),
      dets.foldl (fun acc det => acc.bind (fun z => z.updateDet det)) (some zc) = some zc' →
      (∀ z ∈ zc.zones, zoneInv z) → ∀ z ∈ zc'.zones, zoneInv z := by
  induction dets with
  | nil =>
    intro zc zc' h hz
    obtain rfl : zc = zc' := by simpa using h
    exact hz
  | cons d ds ih =>
    intro zc zc' h hz
    rw [List.foldl_cons, Option.some_bind] at h
    cases hu : zc.updateDet d with
    | none =>
      rw [hu, foldl_updateDet_none] at h
      exact Option.noConfusion h
    | some zc1 =>
      rw [hu] at h
      exact ih zc1 zc' h (updateDet_inv zc zc1 d hu hz)

theorem update_inv (zc zc' : ZoneCounter) (dets : List Detection)
    (h : zc.update dets = some zc') (hz : ∀ z ∈ zc.zones, zoneInv z) :
    ∀ z ∈ zc'.zones, zoneInv z := by
  unfold ZoneCounter.update at h
  cases hf : dets.foldl (fun acc det => acc.bind (fun z => z.updateDet det)) (some zc) with
  | none => simp only [hf] at h; exact Option.noConfusion h
  | some zc1 =>
    simp only [hf, Option.some.injEq] at h
    subst h
    exact foldl_updateDet_inv dets zc zc1 hf hz

theorem foldl_update_none (batches : List (List Detection)) :
    batches.foldl (fun acc b => acc.bind (fun z => z.update b))
      (none : Option ZoneCounter) = none := by
  induction batches with
  | nil => rfl
  | cons b bs ih => rw [List.foldl_cons, Option.none_bind]; exact ih

theorem runZoneCounter_inv (batches : List (List Detection)) :
    ∀ (zc zc' : ZoneCounter), runZoneCounter zc batches = some zc' →
      (∀ z ∈ zc.zones, zoneInv z) → ∀ z ∈ zc'.zones, zoneInv z := by
  induction batches with
  | nil =>
    intro zc zc' h hz
    obtain rfl : zc = zc' := by simpa [runZoneCounter] using h
    exact hz
  | cons b bs ih =>
    intro zc zc' h hz
    unfold runZoneCounter at h
    rw [List.foldl_cons, Option.some_bind] at h
    cases hu : zc.update b with
    | none =>
      rw [hu, foldl_update_none] at h
      exact Option.noConfusion h
    | some zc1 =>
      rw [hu] at h
      exact ih zc1 zc' h (update_inv zc zc1 b hu hz)

/-- C2 (amended): for zones built by `Zone::new` and any sequence of
`ZoneCounter::update` calls that completes without a panic, every zone
satisfies `0 <= current_count` and `entry_count - exit_count <= current_count`
(equality is lost whenever an exit is floored at zero occupancy, e.g. after a
track's first appearance inside the zone). -/
theorem c2_occupancy_bound (cfgs : List (String × String × List (ℚ × ℚ)))
    (batches : List (List Detection)) (zc' : ZoneCounter)
    (h : runZoneCounter
        (ZoneCounter.new (cfgs.map (fun c => Zone.new c.1 c.2.1 c.2.2))) batches = some zc') :
    ∀ z ∈ zc'.zones, 0 ≤ z.current_count ∧
      (z.entry_count : ℤ) - (z.exit_count : ℤ) ≤ z.current_count := by
  have h0 : ∀ z ∈ (ZoneCounter.new (cfgs.map (fun c => Zone.new c.1 c.2.1 c.2.2))).zones,
      zoneInv z := by
    intro z hzin
    simp only [ZoneCounter.new, List.mem_map] at hzin
    obtain ⟨c, -, rfl⟩ := hzin
    simp [Zone.new, zoneInv]
  exact runZoneCounter_inv batches _ zc' h h0

/-- C2 counterexample: a track first seen inside the unit square (baseline
only, no entry counted) that then leaves gives `entry_count = 0`,
`exit_count = 1`, `current_count = 0`: `entry - exit = -1` differs from the
occupancy 0, refuting the claimed equality. -/
theorem c2_counterexample :
    (runZoneCounter (ZoneCounter.new [unitSquareZone]) [[detInside], [detOutside]]).map
      (fun zc => zc.zones.map
        (fun z => ((z.entry_count : ℤ) - (z.exit_count : ℤ), z.current_count))) =
      some [(-1, 0)] ∧ (-1 : ℤ) ≠ 0 := by
  constructor
  · norm_num [runZoneCounter, ZoneCounter.new, ZoneCounter.update, ZoneCounter.updateDet,
      zonesStep, Zone.containsPoint, Zone.updateCount, unitSquareZone, Zone.new,
      detInside, detOutside, Detection.center, posLookup, posInsert, List.getLast?,
      List.foldl, List.filter, List.find?, decide_eq_decide, Option.bind]
  · decide

/-- C2 witness: the amended bound evaluated on the concrete two-frame run. -/
theorem c2_occupancy_bound_witness :
    0 ≤ zoneC2.current_count ∧
      (zoneC2.entry_count : ℤ) - (zoneC2.exit_count : ℤ) ≤ zoneC2.current_count :=
  c2_occupancy_bound [("entrance", "Entrance", [(0, 0), (1, 0), (1, 1), (0, 1)])]
    [[detInside], [detOutside]] zcC2
    (by norm_num [runZoneCounter, ZoneCounter.new, ZoneCounter.update, ZoneCounter.updateDet,
      zonesStep, Zone.containsPoint, Zone.updateCount, unitSquareZone, Zone.new,
      detInside, detOutside, Detection.center, posLookup, posInsert, List.getLast?,
      List.foldl, List.filter, List.find?, decide_eq_decide, Option.bind, zcC2, zoneC2])
    zoneC2 (by simp [zcC2])


/-! Claim C4. -/


theorem dropWhile_cutoff (c : ℤ) :
    ∀ (L : List FrameData), (L.map FrameData.timestamp).Pairwise (· ≤ ·) →
      ∀ f ∈ L.dropWhile (fun f => decide (f.timestamp < c)), c ≤ f.timestamp := by
  intro L
  induction L with
  | nil => simp
  | cons a l ih =>
    intro hp f hf
    rw [List.map_cons, List.pairwise_cons] at hp
    by_cases ha : a.timestamp < c
    · rw [List.dropWhile_cons_of_pos (by simpa using ha)] at hf
      exact ih hp.2 f hf
    · rw [List.dropWhile_cons_of_neg (by simpa using ha)] at hf
      rcases List.mem_cons.mp hf with rfl | hfl
      · omega
      · have := hp.1 f.timestamp (List.mem_map_of_mem FrameData.timestamp hfl)
        omega

theorem addFrame_frames_sublist (vb : VideoBuffer) (now : ℤ) (f : FrameData) :
    (vb.addFrame now f).frames.Sublist (vb.frames ++ [f]) := by
  unfold VideoBuffer.addFrame
  exact (List.dropWhile_suffix _).sublist

theorem runAdds_cons (vb : VideoBuffer) (a : ℤ × FrameData) (l : List (ℤ × FrameData)) :
    runAdds vb (a :: l) = runAdds (vb.addFrame a.1 a.2) l := rfl

theorem VideoBuffer_new_frames (c : String) (D : ℤ) : (VideoBuffer.new c D).frames = [] := rfl

theorem VideoBuffer_new_maxDuration (c : String) (D : ℤ) :
    (VideoBuffer.new c D).max_duration = D := rfl

theorem runAdds_frames_sublist :
    ∀ (adds : List (ℤ × FrameData)) (vb : VideoBuffer),
      (runAdds vb adds).frames.Sublist (vb.frames ++ adds.map (fun p => p.2)) := by
  intro adds
  induction adds with
  | nil => intro vb; simp [runAdds]
  | cons a l ih =>
    intro vb
    rw [runAdds_cons]
    have h1 := ih (vb.addFrame a.1 a.2)
    have h2 := (addFrame_frames_sublist vb a.1 a.2).append_right (l.map (fun p => p.2))
    have h3 := h1.trans h2
    simpa using h3

theorem runAdds_max_duration :
    ∀ (adds : List (ℤ × FrameData)) (vb : VideoBuffer),
      (runAdds vb adds).max_duration = vb.max_duration := by
  intro adds
  induction adds with
  | nil => intro vb; rfl
  | cons a l ih => intro vb; rw [runAdds_cons, ih]; rfl

/-- C4 (amended): when frame timestamps are fed in nondecreasing order, every
frame that `extract_frames` can return after the last `add_frame` call (made
at wall-clock time T) has timestamp at least `T - retention`. Eviction runs
only inside `add_frame`, so the retention bound is anchored to the time of the
last add, not to the later extraction time. -/
theorem c4_retention_after_add (cam : String) (D : ℤ) (adds : List (ℤ × FrameData))
    (hne : adds ≠ [])
    (hmono : (adds.map (fun p => p.2.timestamp)).Pairwise (· ≤ ·))
    (s e : ℤ) (f : FrameData)
    (hf : f ∈ (runAdds (VideoBuffer.new cam D) adds).extractFrames s e) :
    (adds.getLast hne).1 - D ≤ f.timestamp := by
  have hf1 : f ∈ (runAdds (VideoBuffer.new cam D) adds).frames := by
    unfold VideoBuffer.extractFrames at hf
    exact (List.mem_filter.mp hf).1
  obtain ⟨l, a, rfl⟩ : ∃ l a, adds = l ++ [a] :=
    ⟨adds.dropLast, adds.getLast hne, (List.dropLast_append_getLast hne).symm⟩
  rw [List.getLast_concat]
  have hrun : runAdds (VideoBuffer.new cam D) (l ++ [a]) =
      (runAdds (VideoBuffer.new cam D) l).addFrame a.1 a.2 := by
    unfold runAdds
    rw [List.foldl_append]
    rfl
  rw [hrun] at hf1
  unfold VideoBuffer.addFrame at hf1
  dsimp only at hf1
  rw [runAdds_max_duration, VideoBuffer_new_maxDuration] at hf1
  have h1 := runAdds_frames_sublist l (VideoBuffer.new cam D)
  rw [VideoBuffer_new_frames, List.nil_append] at h1
  have hsub := h1.append_right [a.2]
  have heq : l.map (fun p => p.2) ++ [a.2] = (l ++ [a]).map (fun p => p.2) := by simp
  rw [heq] at hsub
  have hmono' : (((l ++ [a]).map (fun p => p.2)).map FrameData.timestamp).Pairwise
      (· ≤ ·) := by
    rw [List.map_map]
    exact hmono
  have hsorted := List.Pairwise.sublist (hsub.map FrameData.timestamp) hmono'
  exact dropWhile_cutoff (a.1 - D) _ hsorted f hf1

/-- C4 witness: the retention bound evaluated on a two-add trace. -/
theorem c4_retention_after_add_witness : (50 : ℤ) - 60 ≤ frame0.timestamp := by
  have h := c4_retention_after_add "cam" 60 addsC4 (by simp [addsC4]) (by decide)
    (-100) 100 frame0 (by decide)
  simpa [addsC4] using h

/-- C4 counterexample: a frame with timestamp 0 added at time 0 into a 60s
buffer is still returned by `extract_frames` when the wall clock has advanced
to 100 (a legal call time, 0 <= 100): its age 100 exceeds the retention 60,
refuting "never returns a frame older than now - retention at the time of the
call". -/
theorem c4_counterexample :
    (bufC4.extractFrames (-1) 1).map FrameData.timestamp = [0] ∧
    ((0 : ℤ) < 100 - 60) ∧ (0 : ℤ) ≤ 100 := by
  decide


/-! Claim C10 (with its id-allocation helper lemmas). -/


theorem map_id_set (ts : List Track) :
    ∀ (n : ℕ) (t t' : Track), ts.get? n = some t → t'.id = t.id →
      (ts.set n t').map Track.id = ts.map Track.id := by
  induction ts with
  | nil => intro n t t' h _; exact Option.noConfusion h
  | cons x xs ih =>
    intro n t t' h hid
    cases n with
    | zero =>
      obtain rfl : x = t := by simpa using h
      simp [List.set, hid]
    | succ m =>
      simp only [List.get?_cons_succ] at h
      simp [List.set, ih m t t' h hid]

theorem applyMatchUpdates_cons (ds ud : List Detection) (p : ℕ × ℕ) (ps : List (ℕ × ℕ))
    (ts : List Track) :
    applyMatchUpdates ds ud (p :: ps) ts = applyMatchUpdates ds ud ps
      (match ts.get? p.2 with
       | some t =>
         ts.set p.2 { t with bbox := (if p.1 < ds.length
           then ds.getD p.1 t.bbox
           else ud.getD (p.1 - ds.length) t.bbox), age := 0 }
       | none => ts) := rfl

theorem applyMatchUpdates_map_id (ds ud : List Detection) :
    ∀ (pairs : List (ℕ × ℕ)) (ts : List Track),
      (applyMatchUpdates ds ud pairs ts).map Track.id = ts.map Track.id := by
  intro pairs
  induction pairs with
  | nil => intro ts; rfl
  | cons p ps ih =>
    intro ts
    rw [applyMatchUpdates_cons]
    cases hg : ts.get? p.2 with
    | none => simp only [hg]; exact ih ts
    | some t =>
      simp only [hg]
      rw [ih]
      exact map_id_set ts p.2 t _ hg rfl

theorem spawnTentatives_cons (d : Detection) (dd : List Detection) (ts : List Track) (n : ℕ) :
    spawnTentatives (d :: dd) (ts, n) = spawnTentatives dd
      (ts ++ [{ id := n, bbox := d, hits := 1, age := 0,
                state := TrackState.Tentative, velocity := (0, 0) }], n + 1) := rfl

theorem spawnTentatives_ids (uds : List Detection) :
    ∀ (ts : List Track) (n : ℕ),
      ((spawnTentatives uds (ts, n)).1.map Track.id
        = ts.map Track.id ++ List.range' n uds.length) ∧
      (spawnTentatives uds (ts, n)).2 = n + uds.length := by
  induction uds with
  | nil =>
    intro ts n
    exact ⟨by simp [spawnTentatives], by simp [spawnTentatives]⟩
  | cons d dd ih =>
    intro ts n
    rw [spawnTentatives_cons]
    obtain ⟨ih1, ih2⟩ := ih (ts ++ [{ id := n, bbox := d, hits := 1, age := 0, state := TrackState.Tentative, velocity := (0, 0) }]) (n + 1)
    constructor
    · rw [ih1, List.map_append, List.length_cons, List.range'_succ]
      simp
    · rw [ih2, List.length_cons]
      omega

theorem lifecycleStep_id (mh ma : ℕ) (t : Track) : (lifecycleStep mh ma t).id = t.id := by
  unfold lifecycleStep
  split_ifs <;> rfl

theorem pipeline_ids (ds uds : List Detection) (pairs : List (ℕ × ℕ)) (ts : List Track)
    (n mh ma : ℕ) :
    ((((spawnTentatives uds (applyMatchUpdates ds uds pairs ts, n)).1.map
        (lifecycleStep mh ma)).filter (fun t => decide (t.state ≠ TrackState.Lost))).map
      Track.id).Sublist (ts.map Track.id ++ List.range' n uds.length) ∧
    (spawnTentatives uds (applyMatchUpdates ds uds pairs ts, n)).2 = n + uds.length := by
  obtain ⟨h1, h2⟩ := spawnTentatives_ids uds (applyMatchUpdates ds uds pairs ts) n
  have h1' : (spawnTentatives uds (applyMatchUpdates ds uds pairs ts, n)).1.map Track.id
      = ts.map Track.id ++ List.range' n uds.length := by
    rw [h1, applyMatchUpdates_map_id]
  constructor
  · have hmap : ((spawnTentatives uds (applyMatchUpdates ds uds pairs ts, n)).1.map
        (lifecycleStep mh ma)).map Track.id
        = (spawnTentatives uds (applyMatchUpdates ds uds pairs ts, n)).1.map Track.id := by
      rw [List.map_map]
      have : Track.id ∘ lifecycleStep mh ma = Track.id := funext (lifecycleStep_id mh ma)
      rw [this]
    have hsub := (List.filter_sublist (l := (spawnTentatives uds
      (applyMatchUpdates ds uds pairs ts, n)).1.map (lifecycleStep mh ma))
      (p := fun t => decide (t.state ≠ TrackState.Lost))).map Track.id
    rw [hmap, h1'] at hsub
    exact hsub
  · exact h2

theorem aged_map_id (ts : List Track) :
    (ts.map (fun t => ({ t with age := t.age + 1 } : Track))).map Track.id
      = ts.map Track.id := by
  rw [List.map_map]
  rfl

theorem update_ids_shape (tr : ByteTracker) (ds : List Detection) :
    ∃ k, (((tr.update ds).1.tracks.map Track.id).Sublist
        (tr.tracks.map Track.id ++ List.range' tr.next_id k)) ∧
      (tr.update ds).1.next_id = tr.next_id + k := by
  simp only [ByteTracker.update]
  refine ⟨_, ?_, (pipeline_ids _ _ _ _ _ tr.min_hits tr.max_age).2⟩
  rw [show tr.tracks.map Track.id
    = (tr.tracks.map (fun t => ({ t with age := t.age + 1 } : Track))).map Track.id from
    (aged_map_id tr.tracks).symm]
  exact (pipeline_ids _ _ _ _ _ _ _).1

theorem idsOk_new : idsOk ByteTracker.new := by
  constructor <;> simp [ByteTracker.new]

theorem idsOk_update (tr : ByteTracker) (ds : List Detection) (h : idsOk tr) :
    idsOk (tr.update ds).1 := by
  obtain ⟨k, hsub, hnext⟩ := update_ids_shape tr ds
  obtain ⟨hpw, hbound⟩ := h
  constructor
  · refine List.Pairwise.sublist hsub ?_
    rw [List.pairwise_append]
    refine ⟨hpw, (List.pairwise_lt_range' _ _).imp (fun hlt => Nat.ne_of_lt hlt), ?_⟩
    intro a ha b hb
    obtain ⟨t, ht, rfl⟩ := List.mem_map.mp ha
    have hb' := (List.mem_range'_1.mp hb).1
    have := hbound t ht
    omega
  · intro t ht
    have hmem : t.id ∈ (tr.update ds).1.tracks.map Track.id := List.mem_map_of_mem Track.id ht
    have hmem2 := hsub.subset hmem
    rw [hnext]
    rcases List.mem_append.mp hmem2 with ho | hr
    · obtain ⟨t', ht', he⟩ := List.mem_map.mp ho
      have := hbound t' ht'
      omega
    · have := (List.mem_range'_1.mp hr).2
      omega

theorem idsOk_runTracker (batches : List (List Detection)) : idsOk (runTracker batches) := by
  unfold runTracker
  suffices h : ∀ (bs : List (List Detection)) (tr : ByteTracker), idsOk tr →
      idsOk (bs.foldl (fun tr b => (tr.update b).1) tr) by
    exact h batches ByteTracker.new idsOk_new
  intro bs
  induction bs with
  | nil => intro tr h; exact h
  | cons b bb ih =>
    intro tr h
    rw [List.foldl_cons]
    exact ih _ (idsOk_update tr b h)

theorem update_output (tr : ByteTracker) (ds : List Detection) :
    (tr.update ds).2 = ((tr.update ds).1.tracks.filter (fun t =>
      decide (t.state = TrackState.Confirmed) && decide (t.age = 0))).map
      (fun t => { t.bbox with track_id := some t.id }) := rfl

/-- C10: every detection returned by `ByteTracker::update` (from any tracker
state reachable from `ByteTracker::new`) carries `track_id = Some(id)` of a
Confirmed track that was matched this frame (`age == 0`), and no two
detections in one returned batch share a track id (ids are allocated from a
monotone counter and never duplicated in the track list). -/
theorem c10_output_confirmed_distinct (batches : List (List Detection)) (dets : List Detection) :
    (∀ d ∈ ((runTracker batches).update dets).2,
      ∃ t ∈ ((runTracker batches).update dets).1.tracks,
        t.state = TrackState.Confirmed ∧ t.age = 0 ∧ d.track_id = some t.id) ∧
    ((((runTracker batches).update dets).2).map Detection.track_id).Pairwise (· ≠ ·) := by
  constructor
  · intro d hd
    rw [update_output] at hd
    obtain ⟨t, htf, rfl⟩ := List.mem_map.mp hd
    have htf' := List.mem_filter.mp htf
    have hprops := htf'.2
    simp only [Bool.and_eq_true, decide_eq_true_eq] at hprops
    exact ⟨t, htf'.1, hprops.1, hprops.2, rfl⟩
  · rw [update_output, List.map_map]
    have hcomp : (Detection.track_id ∘ fun t : Track => { t.bbox with track_id := some t.id })
        = fun t : Track => some t.id := rfl
    rw [hcomp]
    have hidpw : (((runTracker batches).update dets).1.tracks.map Track.id).Pairwise (· ≠ ·) :=
      (idsOk_update _ dets (idsOk_runTracker batches)).1
    have hsub := (List.filter_sublist
      (l := ((runTracker batches).update dets).1.tracks)
      (p := fun t => decide (t.state = TrackState.Confirmed) && decide (t.age = 0))).map
      Track.id
    have h2 := List.Pairwise.sublist hsub hidpw
    rw [show (fun t : Track => some t.id) = (some ∘ Track.id) from rfl, ← List.map_map]
    exact h2.map _ (fun hab => by simpa using hab)


/-! Claim C9. -/

/-- C9: when the resolved window holds no buffered frames, `process_request`
fails with the dedicated no-frames-in-range error before creating any path or
file, and the buffer is left untouched. -/
theorem c9_no_frames_clean_failure (buffer : VideoBuffer) (req : VideoClipRequest)
    (enc : Option ℕ) (tb : Bool) (now : ℤ)
    (h : (buffer.extractFrames (req.timestamp - req.duration_before_secs)
        (req.timestamp + req.duration_after_secs)).isEmpty = true) :
    processRequest buffer req enc tb now =
      (Except.error ClipError.noFramesInRange, [], buffer) := by
  simp only [processRequest, h]
  simp

/-- C9 witness: the clean failure evaluated on the fixture no-coverage request. -/
theorem c9_no_frames_clean_failure_witness :
    processRequest bufOneFrame reqNoFrames (some 5) true 600 =
      (Except.error ClipError.noFramesInRange, [], bufOneFrame) :=
  c9_no_frames_clean_failure bufOneFrame reqNoFrames (some 5) true 600 (by decide)

end RS
